import Mathlib

/-!
Shallow embedding of the WAV serialization routine `Sound::save_to_wav` and the
handle-release logic `Sound::release` from `src/sound.rs` of the rust-fmod
repository.

Conventions of the embedding:
* machine integers are `Nat` with explicit `% 2^16` / `% 2^32` where the Rust
  code casts (`as u16`, `as u32`) or where u16/u32 arithmetic can wrap;
* the byte stream written through the `BufferedWriter` is a `List Nat`
  (each entry one byte); `write_le_u16` / `write_le_u32` / `write_le_i32`
  become explicit little-endian byte serializers (`write_le_i32` emits the
  little-endian bytes of the two's-complement bit pattern, i.e. of the value
  modulo `2^32`);
* the FFI collaborators (`FMOD_Sound_GetLength`, `FMOD_Sound_GetFormat`,
  `FMOD_Sound_GetDefaults`, `File::create`, the sink writes,
  `FMOD_Sound_Lock` / `FMOD_Sound_Unlock`) are modelled by an environment
  record `Env` supplying their results; the native sample memory is a
  function `Nat -> Nat` from addresses to bytes;
* `.unwrap()` on a failed write is modelled by the outcome `Outcome.panicked`;
* the trace records whether the file was created, the bytes written, how many
  times `FMOD_Sound_Lock` was called and the argument tuples passed to
  `FMOD_Sound_Unlock`.
-/

namespace RustFmod

/-- Little-endian serialization of a 16-bit value (`write_le_u16`). -/
def u16le (x : Nat) : List Nat := [x % 256, x / 256 % 256]

/-- Little-endian serialization of a 32-bit value (`write_le_u32`, and
`write_le_i32` applied to the two's-complement bit pattern). -/
def u32le (x : Nat) : List Nat :=
  [x % 256, x / 256 % 256, x / 65536 % 256, x / 16777216 % 256]

/-- Value of a little-endian byte sequence (least significant byte first). -/
def leVal : List Nat → Nat
  | [] => 0
  | b :: rest => b + 256 * leVal rest

/-- Read a 16-bit little-endian field of a byte list at a byte offset. -/
def fieldU16 (bs : List Nat) (off : Nat) : Nat :=
  leVal ((bs.drop off).take 2)

/-- Read a 32-bit little-endian field of a byte list at a byte offset. -/
def fieldU32 (bs : List Nat) (off : Nat) : Nat :=
  leVal ((bs.drop off).take 4)

/-- `mem::size_of::<RiffChunk>()`: `id: [c_char; 4]` plus `size: c_int`. -/
def riffChunk_size_of : Nat := 4 + 4

/-- `mem::size_of::<FmtChunk>()`: a `RiffChunk` followed by
`u16, u16, u32, u32, u16, u16`; every field is naturally aligned in
declaration order, so there is no padding and the size is the sum. -/
def fmtChunk_size_of : Nat := riffChunk_size_of + 2 + 2 + 4 + 4 + 2 + 2

/-- `fmt_chunk.w_format_tag = 1` (line 695). -/
def w_format_tag : Nat := 1

/-- `fmt_chunk.chunk.size = size_of::<FmtChunk>() - size_of::<RiffChunk>()`
(line 693). -/
def fmt_chunk_size : Nat := fmtChunk_size_of - riffChunk_size_of

/-- `fmt_chunk.n_channels = channels as u16` (line 696). -/
def n_channels (channels : Nat) : Nat := channels % 65536

/-- `fmt_chunk.n_samples_per_sec = rate as u32` (line 697); `rate` is the
queried f32 default frequency taken at its integral value. -/
def n_samples_per_sec (rate : Nat) : Nat := rate % 4294967296

/-- `fmt_chunk.n_avg_bytes_per_sec = rate as u32 * channels as u32 * bits as u32 / 8u32`
(line 698): left-associated u32 multiplication (wrapping modulo `2^32`)
followed by u32 division. -/
def n_avg_bytes_per_sec (rate channels bits : Nat) : Nat :=
  (rate % 4294967296) * (channels % 4294967296) % 4294967296 *
    (bits % 4294967296) % 4294967296 / 8

/-- `fmt_chunk.n_block_align = 1u16 * channels as u16 * bits as u16 / 8u16`
(line 699): left-associated u16 multiplication (wrapping modulo `2^16`)
followed by u16 division. -/
def n_block_align (channels bits : Nat) : Nat :=
  1 * (channels % 65536) % 65536 * (bits % 65536) % 65536 / 8

/-- `fmt_chunk.w_bits_per_sample = bits as u16` (line 700). -/
def w_bits_per_sample (bits : Nat) : Nat := bits % 65536

/-- `data_chunk.chunk.size = len_bytes as i32` (line 705); its bit pattern,
read unsigned, is `len_bytes % 2^32`. -/
def data_chunk_size (len_bytes : Nat) : Nat := len_bytes % 4294967296

/-- `wav_header.chunk.size = size_of::<FmtChunk>() as i32 + size_of::<RiffChunk>() as i32 + len_bytes as i32`
(line 711), i32 addition wrapping modulo `2^32` on the bit pattern. -/
def wav_header_chunk_size (len_bytes : Nat) : Nat :=
  (fmtChunk_size_of + riffChunk_size_of + len_bytes) % 4294967296

/-- The byte sequence of the 44-byte header emitted by lines 722-747, in
order: RIFF chunk id "RIFF" (bytes 82,73,70,70), its size, riff type "WAVE"
(87,65,86,69); fmt chunk id "fmt " (102,109,116,32), its size and six body
fields; data chunk id "data" (100,97,116,97) and its size. -/
def headerBytes (len_bytes channels rate bits : Nat) : List Nat :=
  [82, 73, 70, 70] ++ u32le (wav_header_chunk_size len_bytes) ++
    [87, 65, 86, 69] ++
    [102, 109, 116, 32] ++ u32le fmt_chunk_size ++ u16le w_format_tag ++
    u16le (n_channels channels) ++ u32le (n_samples_per_sec rate) ++
    u32le (n_avg_bytes_per_sec rate channels bits) ++
    u16le (n_block_align channels bits) ++ u16le (w_bits_per_sample bits) ++
    [100, 97, 116, 97] ++ u32le (data_chunk_size len_bytes)

/-- The header split into the 25 individual `BufferedWriter` calls of lines
722-747 (each `write_i8` is one call emitting one byte, each `write_le_u16` /
`write_le_u32` / `write_le_i32` one call emitting two or four bytes). -/
def headerOps (len_bytes channels rate bits : Nat) : List (List Nat) :=
  [[82], [73], [70], [70], u32le (wav_header_chunk_size len_bytes),
   [87], [65], [86], [69],
   [102], [109], [116], [32], u32le fmt_chunk_size, u16le w_format_tag,
   u16le (n_channels channels), u32le (n_samples_per_sec rate),
   u32le (n_avg_bytes_per_sec rate channels bits),
   u16le (n_block_align channels bits), u16le (w_bits_per_sample bits),
   [100], [97], [116], [97], u32le (data_chunk_size len_bytes)]

/-- Concatenation of a list of write payloads. -/
def catOps : List (List Nat) → List Nat
  | [] => []
  | op :: rest => op ++ catOps rest

/-- Which FFI or I/O step produced an early `Err` return. -/
inductive ErrStep where
  | lengthQ
  | formatQ
  | defaultsQ
  | createF
deriving DecidableEq

/-- Result of a `save_to_wav` run: a returned `Ok`, a returned `Err`
(tagged with the step that failed and the native error code), or a panic
from `.unwrap()` on a failed sink write. -/
inductive Outcome where
  | ok (b : Bool)
  | err (step : ErrStep) (code : Nat)
  | panicked
deriving DecidableEq

/-- Environment supplying the results of every external call made by
`save_to_wav`: the three queries, file creation, the index of the first
failing sink write call (`none` = all writes succeed), the lock result and
the out-parameters it fills, and the native sample memory. -/
structure Env where
  lengthRes : Except Nat Nat
  formatRes : Except Nat (Nat × Nat)
  defaultsRes : Except Nat Nat
  createOk : Bool
  failAt : Option Nat
  lockResOk : Bool
  lptr1 : Nat
  llen1 : Nat
  lptr2 : Nat
  llen2 : Nat
  mem : Nat → Nat

/-- Observable trace of a `save_to_wav` run. -/
structure Trace where
  fileCreated : Bool
  written : List Nat
  locks : Nat
  unlockCalls : List (Nat × Nat × Nat × Nat)
deriving DecidableEq

/-- `slice::raw::buf_as_slice(p, len)`: the `len` bytes of native memory
starting at address `p`. -/
def segBytes (mem : Nat → Nat) (p len : Nat) : List Nat :=
  (List.range len).map (fun i => mem (p + i))

/-- Run a sequence of sink write calls starting at call index `i`; the call
with index `failAt` fails. Returns the bytes written by the successful calls
before the failure and whether all calls succeeded. -/
def runWrites (failAt : Option Nat) (i : Nat) (ops : List (List Nat)) :
    List Nat × Bool :=
  match ops with
  | [] => ([], true)
  | op :: rest =>
    if failAt = some i then ([], false)
    else
      let r := runWrites failAt (i + 1) rest
      (op ++ r.1, r.2)

/-- `ptr1` after the (result-ignored) `FMOD_Sound_Lock` call of line 749: the
out-parameter keeps its null initialization when the lock fails. -/
def lockP1 (env : Env) : Nat := if env.lockResOk then env.lptr1 else 0

/-- `len1` after the lock call (0 when the lock fails). -/
def lockL1 (env : Env) : Nat := if env.lockResOk then env.llen1 else 0

/-- `ptr2` after the lock call (null when the lock fails). -/
def lockP2 (env : Env) : Nat := if env.lockResOk then env.lptr2 else 0

/-- `len2` after the lock call (0 when the lock fails). -/
def lockL2 (env : Env) : Nat := if env.lockResOk then env.llen2 else 0

/-- Embedding of `Sound::save_to_wav` (lines 669-758): query length, format
and defaults (each early-returning `Err` on failure), create the file
(early-returning `Err` on failure), write the 25 header calls (`.unwrap()`
panics at the first failing call), call `FMOD_Sound_Lock` ignoring its
result, write `len_bytes` bytes read from `ptr1` (one more sink call,
`.unwrap()` panics on failure), call `FMOD_Sound_Unlock` with both pointers
and both lengths, return `Ok(true)`. -/
def save_to_wav (env : Env) : Outcome × Trace :=
  match env.lengthRes with
  | .error e => (.err .lengthQ e, ⟨false, [], 0, []⟩)
  | .ok len_bytes =>
    match env.formatRes with
    | .error e => (.err .formatQ e, ⟨false, [], 0, []⟩)
    | .ok (channels, bits) =>
      match env.defaultsRes with
      | .error e => (.err .defaultsQ e, ⟨false, [], 0, []⟩)
      | .ok rate =>
        if env.createOk = false then (.err .createF 0, ⟨false, [], 0, []⟩)
        else
          let hops := headerOps len_bytes channels rate bits
          let hr := runWrites env.failAt 0 hops
          if hr.2 = false then (.panicked, ⟨true, hr.1, 0, []⟩)
          else if env.failAt = some hops.length then
            (.panicked, ⟨true, hr.1, 1, []⟩)
          else
            (.ok true,
             ⟨true, hr.1 ++ segBytes env.mem (lockP1 env) len_bytes, 1,
              [(lockP1 env, lockP2 env, lockL1 env, lockL2 env)]⟩)

/-- Result codes of the native library (`enums::Result`): `Ok` or an error
code. -/
inductive FmodResult where
  | ok
  | err (code : Nat)
deriving DecidableEq

/-- The two fields of `Sound` that `release` reads and writes: the raw
handle (`none` = null pointer) and the ownership flag. -/
structure SoundHandle where
  sound : Option Nat
  can_be_deleted : Bool
deriving DecidableEq

/-- Embedding of `Sound::release` (lines 196-208): when owning and non-null,
call the native `FMOD_Sound_Release` (modelled by `native`); on `Ok` null
the handle, otherwise keep it; when not owning or already null, return `Ok`
without calling the native library. The third component records whether the
native release was invoked. -/
def release (native : Nat → FmodResult) (s : SoundHandle) :
    SoundHandle × FmodResult × Bool :=
  match s.sound, s.can_be_deleted with
  | some h, true =>
    match native h with
    | FmodResult.ok => (⟨none, true⟩, FmodResult.ok, true)
    | FmodResult.err c => (s, FmodResult.err c, true)
  | _, _ => (s, FmodResult.ok, false)

/-- Embedding of `Drop for Sound` (lines 180-184): call `release` and drop
its result. -/
def dropSound (native : Nat → FmodResult) (s : SoundHandle) : SoundHandle :=
  (release native s).1

/-! ## Helper lemmas -/

theorem leVal_u32le (x : Nat) : leVal (u32le x) = x % 4294967296 := by
  simp only [u32le, leVal]
  omega

theorem leVal_u16le (x : Nat) : leVal (u16le x) = x % 65536 := by
  simp only [u16le, leVal]
  omega

/-- The header byte list is the concatenation of the 25 write payloads. -/
theorem catOps_headerOps (l c r b : Nat) :
    catOps (headerOps l c r b) = headerBytes l c r b := rfl

theorem headerOps_length (l c r b : Nat) : (headerOps l c r b).length = 25 := rfl

theorem headerBytes_length (l c r b : Nat) : (headerBytes l c r b).length = 44 := rfl

/-- The u32 byte-rate computation wraps the full product modulo `2^32`. -/
theorem n_avg_bytes_per_sec_eq (r c b : Nat) :
    n_avg_bytes_per_sec r c b = r * c * b % 4294967296 / 8 := by
  unfold n_avg_bytes_per_sec
  rw [← Nat.mul_mod r c 4294967296, ← Nat.mul_mod (r * c) b 4294967296]

/-- The u16 block-align computation wraps the product modulo `2^16`. -/
theorem n_block_align_eq (c b : Nat) :
    n_block_align c b = c * b % 65536 / 8 := by
  unfold n_block_align
  rw [Nat.one_mul, Nat.mod_mod_of_dvd c (dvd_refl 65536), ← Nat.mul_mod c b 65536]

theorem runWrites_none (ops : List (List Nat)) (i : Nat) :
    runWrites none i ops = (catOps ops, true) := by
  induction ops generalizing i with
  | nil => rfl
  | cons op rest ih => simp [runWrites, catOps, ih]

theorem runWrites_fail (ops : List (List Nat)) (i k : Nat) (h1 : i ≤ k)
    (h2 : k < i + ops.length) :
    runWrites (some k) i ops = (catOps (ops.take (k - i)), false) := by
  induction ops generalizing i with
  | nil => simp at h2; omega
  | cons op rest ih =>
    simp only [runWrites]
    by_cases hk : k = i
    · subst hk
      simp [catOps]
    · rw [if_neg (by simpa using hk)]
      have h2' : k < i + 1 + rest.length := by simp at h2; omega
      rw [ih (i + 1) (by omega) h2']
      have hki : k - i = (k - (i + 1)) + 1 := by omega
      rw [hki]
      simp [catOps]

theorem runWrites_after (ops : List (List Nat)) (i k : Nat)
    (h : i + ops.length ≤ k) :
    runWrites (some k) i ops = (catOps ops, true) := by
  induction ops generalizing i with
  | nil => rfl
  | cons op rest ih =>
    have hk : ¬ k = i := by simp at h; omega
    simp only [runWrites]
    rw [if_neg (by simpa using hk)]
    rw [ih (i + 1) (by simp at h; omega)]
    simp [catOps]

/-- Characterization of the run when every external call succeeds: the file
is created, the output is the 44-byte header followed by `len_bytes` bytes
read from `ptr1`, the source is locked once and unlocked once with both
pointers and both lengths, and `Ok(true)` is returned. -/
theorem save_to_wav_all_ok (env : Env) (L c b r : Nat)
    (h1 : env.lengthRes = Except.ok L) (h2 : env.formatRes = Except.ok (c, b))
    (h3 : env.defaultsRes = Except.ok r) (h4 : env.createOk = true)
    (h5 : env.failAt = none) :
    save_to_wav env =
      (Outcome.ok true,
       ⟨true, headerBytes L c r b ++ segBytes env.mem (lockP1 env) L, 1,
        [(lockP1 env, lockP2 env, lockL1 env, lockL2 env)]⟩) := by
  unfold save_to_wav
  rw [h1, h2, h3, h4, h5]
  simp [runWrites_none, catOps_headerOps]

/-! ## Concrete environments used by the claim theorems -/

/-- All-zero native memory. -/
def memZero : Nat → Nat := fun _ => 0

/-- A run with payload length 0, format 2 channels / 16 bits / 44100 Hz,
every external call succeeding. -/
def envChunkSize : Env :=
  ⟨Except.ok 0, Except.ok (2, 16), Except.ok 44100, true, none, true,
   0, 0, 0, 0, memZero⟩

/-- A run whose queried format reports 0 channels, every external call
succeeding, payload length 8. -/
def envNoValidation : Env :=
  ⟨Except.ok 8, Except.ok (0, 16), Except.ok 44100, true, none, true,
   0, 8, 0, 0, memZero⟩

/-- A run where the data write (call index 25) fails after a successful
lock. -/
def envLockNoUnlock : Env :=
  ⟨Except.ok 4, Except.ok (2, 16), Except.ok 44100, true, some 25, true,
   0, 4, 0, 0, memZero⟩

/-- A fully successful run whose lock returns segment1 at address 3 of
length 4 and segment2 at address 9 of length 0. -/
def envUnlockWit : Env :=
  ⟨Except.ok 4, Except.ok (2, 16), Except.ok 44100, true, none, true,
   3, 4, 9, 0, memZero⟩

/-- A run where the very first header write (call index 0) fails. -/
def envWriteFail : Env :=
  ⟨Except.ok 4, Except.ok (2, 16), Except.ok 44100, true, some 0, true,
   0, 4, 0, 0, memZero⟩

/-- A run where the header write with call index 3 fails. -/
def envWriteFailWit : Env :=
  ⟨Except.ok 4, Except.ok (2, 16), Except.ok 44100, true, some 3, true,
   0, 4, 0, 0, memZero⟩

/-- Native memory holding bytes 1..8 at addresses 0..7 and bytes 51..54 at
addresses 100..103 (a wrapped ring buffer: the second segment lives at a
different address range). -/
def memWrap : Nat → Nat :=
  fun a => if a < 8 then a + 1 else if 100 ≤ a ∧ a < 104 then a - 49 else 0

/-- A run with payload length 8 whose lock reports a wrapped buffer:
segment1 = addresses [0,4), segment2 = addresses [100,104). -/
def envWrap : Env :=
  ⟨Except.ok 8, Except.ok (2, 16), Except.ok 44100, true, none, true,
   0, 4, 100, 4, memWrap⟩

/-! ## Claim theorems -/

/-- Claim C1 (code bug): the claim states the RIFF ChunkSize at byte offset
4 equals `36 + L`. The code computes it as
`size_of::<FmtChunk>() (24) + size_of::<RiffChunk>() (8) + L = 32 + L`,
omitting the 4 bytes of the `WAVE` tag. At payload length `L = 0` the field
decodes to 32, not 36, and at `L = 8192` to `32 + 8192`; the same value is
what a fully successful `save_to_wav` run writes to the file. -/
theorem riff_chunk_size_off_by_four :
    fieldU32 (headerBytes 0 2 44100 16) 4 = 32 ∧
    fieldU32 (headerBytes 8192 2 44100 16) 4 = 32 + 8192 ∧
    fieldU32 ((save_to_wav envChunkSize).2.written) 4 = 32 ∧
    (32 : Nat) ≠ 36 + 0 := by decide

/-- Claim C2: for every input, the fmt chunk's declared body size (byte
offset 16) is exactly 16 and the format tag (byte offset 20) is 1. -/
theorem fmt_chunk_fixed_fields (l c r b : Nat) :
    fieldU32 (headerBytes l c r b) 16 = 16 ∧
    fieldU16 (headerBytes l c r b) 20 = 1 :=
  ⟨rfl, rfl⟩

set_option maxHeartbeats 1600000 in
/-- Claim C3: the header emitted before the sample data is exactly 44 bytes,
with "RIFF" at offset 0, "WAVE" at 8, "fmt " at 12, "data" at 36, the
Subchunk2Size little-endian field at offset 40 decoding to the payload
length, and the multi-byte fields (channel count, sample rate, bits per
sample) written little-endian (they decode to the written u16/u32 values
under little-endian reading, independent of any host byte order). -/
theorem header_layout (l c r b : Nat) (h : l < 4294967296) :
    (headerBytes l c r b).length = 44 ∧
    (headerBytes l c r b).take 4 = [82, 73, 70, 70] ∧
    ((headerBytes l c r b).drop 8).take 4 = [87, 65, 86, 69] ∧
    ((headerBytes l c r b).drop 12).take 4 = [102, 109, 116, 32] ∧
    ((headerBytes l c r b).drop 36).take 4 = [100, 97, 116, 97] ∧
    fieldU32 (headerBytes l c r b) 40 = l ∧
    fieldU16 (headerBytes l c r b) 22 = c % 65536 ∧
    fieldU32 (headerBytes l c r b) 24 = r % 4294967296 ∧
    fieldU16 (headerBytes l c r b) 34 = b % 65536 := by
  refine ⟨rfl, rfl, rfl, rfl, rfl, ?_, ?_, ?_, ?_⟩
  · show leVal (u32le (data_chunk_size l)) = l
    rw [leVal_u32le]
    unfold data_chunk_size
    omega
  · show leVal (u16le (n_channels c)) = c % 65536
    rw [leVal_u16le]
    unfold n_channels
    omega
  · show leVal (u32le (n_samples_per_sec r)) = r % 4294967296
    rw [leVal_u32le]
    unfold n_samples_per_sec
    omega
  · show leVal (u16le (w_bits_per_sample b)) = b % 65536
    rw [leVal_u16le]
    unfold w_bits_per_sample
    omega

/-- Witness for C3 at the spec scenario 8192 bytes / 2 channels /
44100 Hz / 16 bits. -/
theorem header_layout_wit :
    (headerBytes 8192 2 44100 16).length = 44 ∧
    (headerBytes 8192 2 44100 16).take 4 = [82, 73, 70, 70] ∧
    ((headerBytes 8192 2 44100 16).drop 8).take 4 = [87, 65, 86, 69] ∧
    ((headerBytes 8192 2 44100 16).drop 12).take 4 = [102, 109, 116, 32] ∧
    ((headerBytes 8192 2 44100 16).drop 36).take 4 = [100, 97, 116, 97] ∧
    fieldU32 (headerBytes 8192 2 44100 16) 40 = 8192 ∧
    fieldU16 (headerBytes 8192 2 44100 16) 22 = 2 ∧
    fieldU32 (headerBytes 8192 2 44100 16) 24 = 44100 ∧
    fieldU16 (headerBytes 8192 2 44100 16) 34 = 16 :=
  header_layout 8192 2 44100 16 (by decide)

/-- Claim C4 (corrected), counterexample to the original claim: with a
queried channel count of 0 the encode does not fail with any invalid-format
error and the output file is created; the header is written with
NumChannels = 0. -/
theorem no_format_validation_cex :
    (save_to_wav envNoValidation).1 = Outcome.ok true ∧
    (save_to_wav envNoValidation).2.fileCreated = true ∧
    fieldU16 ((save_to_wav envNoValidation).2.written) 22 = 0 := by decide

/-- Claim C4 (amended): `save_to_wav` performs no validation of the format
descriptor. For every environment whose queries, file creation and writes
succeed and whose queried channel count is 0, the encode returns `Ok(true)`
and the output file is created. -/
theorem no_format_validation (env : Env) (L b r : Nat)
    (h1 : env.lengthRes = Except.ok L) (h2 : env.formatRes = Except.ok (0, b))
    (h3 : env.defaultsRes = Except.ok r) (h4 : env.createOk = true)
    (h5 : env.failAt = none) :
    (save_to_wav env).1 = Outcome.ok true ∧
    (save_to_wav env).2.fileCreated = true := by
  rw [save_to_wav_all_ok env L 0 b r h1 h2 h3 h4 h5]
  exact ⟨rfl, rfl⟩

/-- Witness for the amended C4. -/
theorem no_format_validation_wit :
    (save_to_wav envNoValidation).1 = Outcome.ok true ∧
    (save_to_wav envNoValidation).2.fileCreated = true :=
  no_format_validation envNoValidation 8 16 44100 rfl rfl rfl rfl rfl

/-- Claim C5 (corrected), counterexample to the original claim: when the
data write (call index 25) fails after a successful lock, the encode
terminates by panicking with the lock taken (`locks = 1`) and
`FMOD_Sound_Unlock` is never invoked — a successful lock is left unmatched
on this exit path. -/
theorem unlock_skipped_cex :
    (save_to_wav envLockNoUnlock).2.locks = 1 ∧
    (save_to_wav envLockNoUnlock).2.unlockCalls = [] ∧
    (save_to_wav envLockNoUnlock).1 = Outcome.panicked := by decide

/-- Claim C5 (amended): on every run in which all sink writes succeed,
unlock is invoked exactly once per lock (successful or failed), with both
segment pointers and both lengths passed back even when segment2 is empty;
but if the data write fails, the encode panics having locked without
unlocking. -/
theorem unlock_once_unless_write_panics (env : Env) (L c b r : Nat)
    (h1 : env.lengthRes = Except.ok L) (h2 : env.formatRes = Except.ok (c, b))
    (h3 : env.defaultsRes = Except.ok r) (h4 : env.createOk = true) :
    (env.failAt = none →
      (save_to_wav env).2.locks = 1 ∧
      (save_to_wav env).2.unlockCalls =
        [(lockP1 env, lockP2 env, lockL1 env, lockL2 env)]) ∧
    (env.failAt = some 25 →
      (save_to_wav env).2.locks = 1 ∧
      (save_to_wav env).2.unlockCalls = []) := by
  constructor
  · intro h5
    rw [save_to_wav_all_ok env L c b r h1 h2 h3 h4 h5]
    exact ⟨rfl, rfl⟩
  · intro h5
    unfold save_to_wav
    rw [h1, h2, h3, h4, h5]
    simp [runWrites_after (headerOps L c r b) 0 25 (by simp [headerOps_length]),
      headerOps_length]

/-- Witness for the amended C5: a successful run unlocks exactly once,
passing back segment1 (address 3, length 4) and the empty segment2
(address 9, length 0). -/
theorem unlock_once_wit :
    (save_to_wav envUnlockWit).2.locks = 1 ∧
    (save_to_wav envUnlockWit).2.unlockCalls = [(3, 9, 4, 0)] :=
  (unlock_once_unless_write_panics envUnlockWit 4 2 16 44100
    rfl rfl rfl rfl).1 rfl

/-- Claim C6 (corrected), counterexample to the original claim: when the
first write to the destination fails, the encode does not return an error
value to its caller — the `.unwrap()` panics (aborting the call), with
nothing written. -/
theorem write_failure_cex :
    (save_to_wav envWriteFail).1 = Outcome.panicked ∧
    (save_to_wav envWriteFail).2.written = [] := by decide

/-- Claim C6 (amended): if the sink write with call index `k` (of the 25
header write calls and the data write call, `k < 26`) fails, the encode
panics via `.unwrap()` instead of returning an error; the first failure
aborts immediately (no retry) and the bytes emitted by the preceding calls
remain written (no rollback). Only the length/format/defaults queries and
file creation produce `Err` returns. -/
theorem write_failure_panics (env : Env) (L c b r k : Nat)
    (h1 : env.lengthRes = Except.ok L) (h2 : env.formatRes = Except.ok (c, b))
    (h3 : env.defaultsRes = Except.ok r) (h4 : env.createOk = true)
    (h5 : env.failAt = some k) (h6 : k < 26) :
    (save_to_wav env).1 = Outcome.panicked ∧
    (save_to_wav env).2.written = catOps ((headerOps L c r b).take k) := by
  unfold save_to_wav
  rw [h1, h2, h3, h4, h5]
  rcases Nat.lt_or_ge k 25 with hk | hk
  · simp [runWrites_fail (headerOps L c r b) 0 k (Nat.zero_le k)
      (by simp [headerOps_length]; omega)]
  · have hk25 : k = 25 := by omega
    subst hk25
    have ht : (headerOps L c r b).take 25 = headerOps L c r b := rfl
    simp [runWrites_after (headerOps L c r b) 0 25 (by simp [headerOps_length]),
      headerOps_length, ht]

/-- Witness for the amended C6: failing the write call with index 3 panics
with exactly the first three header bytes written. -/
theorem write_failure_wit :
    (save_to_wav envWriteFailWit).1 = Outcome.panicked ∧
    (save_to_wav envWriteFailWit).2.written = [82, 73, 70] :=
  write_failure_panics envWriteFailWit 4 2 16 44100 3
    rfl rfl rfl rfl rfl (by decide)

/-- Claim C7 (code bug): when the lock returns two segments (wrapped ring
buffer: segment1 = 4 bytes at address 0, segment2 = 4 bytes at address 100,
total = payload length 8), the code passes `len_bytes` — not `len1` — to
`buf_as_slice` over `ptr1`, so it writes the 8 bytes of native memory
starting at segment1's address (reading past the 4-byte segment1) and never
writes segment2: the data written after the 44-byte header differs from the
concatenation of the two returned segments. -/
theorem segment2_never_written :
    lockL1 envWrap = 4 ∧ lockL2 envWrap = 4 ∧
    (save_to_wav envWrap).2.written.drop 44 = [1, 2, 3, 4, 5, 6, 7, 8] ∧
    segBytes envWrap.mem (lockP1 envWrap) (lockL1 envWrap) ++
      segBytes envWrap.mem (lockP2 envWrap) (lockL2 envWrap) =
      [1, 2, 3, 4, 51, 52, 53, 54] ∧
    (save_to_wav envWrap).2.written.drop 44 ≠
      segBytes envWrap.mem (lockP1 envWrap) (lockL1 envWrap) ++
        segBytes envWrap.mem (lockP2 envWrap) (lockL2 envWrap) := by decide

/-- Claim C8 (corrected), counterexample to the original claim: at the
valid format 1073741824 Hz (2^30, representable exactly in f32), 4 channels,
8 bits, the u32 product wraps modulo 2^32, so the byte-rate field is 0 while
`sample_rate_hz * channel_count * bits_per_sample / 8 = 4294967296`. -/
theorem byte_rate_overflow_cex :
    n_avg_bytes_per_sec 1073741824 4 8 = 0 ∧
    fieldU32 (headerBytes 0 4 1073741824 8) 28 = 0 ∧
    (1073741824 * 4 * 8 / 8 : Nat) = 4294967296 ∧
    (0 : Nat) ≠ 4294967296 := by decide

/-- Claim C8 (amended): whenever the product
`sample_rate_hz * channel_count * bits_per_sample` does not exceed the u32
range, the byte-rate field written at offset 28 equals
`sample_rate_hz * channel_count * bits_per_sample / 8` (the queried
floating-point rate taken at its integral value); in general the product is
taken modulo 2^32. -/
theorem byte_rate_no_overflow (l r c b : Nat) (h : r * c * b < 4294967296) :
    fieldU32 (headerBytes l c r b) 28 = r * c * b / 8 := by
  show leVal (u32le (n_avg_bytes_per_sec r c b)) = r * c * b / 8
  rw [leVal_u32le, n_avg_bytes_per_sec_eq]
  generalize r * c * b = t at h ⊢
  omega

/-- Witness for the amended C8 at the spec example 44100 Hz, 2 channels,
16 bits: byte rate 176400. -/
theorem byte_rate_wit : fieldU32 (headerBytes 0 2 44100 16) 28 = 176400 :=
  byte_rate_no_overflow 0 44100 2 16 (by decide)

/-- Claim C9: for every channel count and bit depth, the block-align field
written at offset 32 equals `channel_count * bits_per_sample / 8` computed
in 16-bit unsigned arithmetic, i.e. the product wraps modulo 2^16 before
the division (e.g. 2 channels, 16 bits gives 4). -/
theorem block_align_field (l c r b : Nat) :
    fieldU16 (headerBytes l c r b) 32 = c * b % 65536 / 8 := by
  show leVal (u16le (n_block_align c b)) = c * b % 65536 / 8
  rw [leVal_u16le, n_block_align_eq]
  generalize c * b = t
  omega

/-- Claim C10: `Sound::release` invokes the native release exactly when the
sound owns its handle (`can_be_deleted`) and the handle is non-null; a
non-owning sound is never released and is returned unchanged with `Ok`; on
a successful native release the handle is nulled; and after any release
that returned `Ok`, every subsequent release — including the one triggered
by `Drop` — returns `Ok` without touching the native library and leaves the
state unchanged. -/
theorem release_owned_once (native : Nat → FmodResult) (s : SoundHandle) :
    ((release native s).2.2 = true ↔
      (s.can_be_deleted = true ∧ s.sound ≠ none)) ∧
    (s.can_be_deleted = false →
      release native s = (s, FmodResult.ok, false)) ∧
    ((release native s).2.1 = FmodResult.ok →
      ∀ n2 : Nat → FmodResult,
        release n2 (release native s).1 =
          ((release native s).1, FmodResult.ok, false) ∧
        dropSound n2 (release native s).1 = (release native s).1) ∧
    ((release native s).2.2 = true → (release native s).2.1 = FmodResult.ok →
      (release native s).1.sound = none) := by
  rcases s with ⟨snd, del⟩
  cases snd with
  | none => cases del <;> simp [release, dropSound]
  | some h =>
    cases del with
    | false => simp [release, dropSound]
    | true =>
      cases hn : native h with
      | ok => simp [release, dropSound, hn]
      | err c => simp [release, dropSound, hn]

/-- Witness for C10: releasing an owned, non-null handle with a succeeding
native release does invoke the native release. -/
theorem release_owned_once_wit :
    (release (fun _ => FmodResult.ok) ⟨some 1, true⟩).2.2 = true :=
  (release_owned_once (fun _ => FmodResult.ok) ⟨some 1, true⟩).1.mpr
    (by simp)

end RustFmod
